import Mathlib

/-!
Peripheral-role BLE samples: key refresh, re-arm and advertising-set start.

Shallow embedding of three sample applications

* `samples/bluetooth/peripheral_hr/src/main.c`   (namespace `PeripheralHr`)
* `samples/bluetooth/peripheral_dis/src/main.c`  (namespace `PeripheralDis`)
* `samples/bluetooth/advertising_sets/src/main.c` (namespace `AdvertisingSets`)

Module-level C variables become fields of an explicit state record, every
callback becomes a function from state to state, and every call into the
Bluetooth host or the kernel is appended to a call log carried by the state.
Definitions come first, for all three applications; the theorems follow.
-/

namespace Zephyr

/-! ## Shared data -/

/-- Peer address `bt_addr_le_t`: an address-type octet and six address octets. -/
structure bt_addr_le_t where
  type : Nat
  a : List Nat
  deriving DecidableEq, Repr

/-- The all-zero address, as produced by `= {0}`. -/
def bt_addr_le_zero : bt_addr_le_t := { type := 0, a := List.replicate 6 0 }

/-- Connection object `struct bt_conn`; `dst` is what `bt_conn_get_dst` returns. -/
structure bt_conn where
  handle : Nat
  dst : bt_addr_le_t
  deriving DecidableEq, Repr

/-- Argument of a `printk` call. An address stands for the text that
`bt_addr_le_to_str` renders from it. -/
inductive PArg
  | num (n : Nat)
  | int (i : Int)
  | addr (a : bt_addr_le_t)
  | conn (c : Option bt_conn)
  | str (s : String)
  deriving DecidableEq, Repr

namespace PeripheralHr

/-! ## peripheral_hr: data model -/

/-- Long term key `struct bt_ltk`; `val` holds the sixteen key octets. -/
structure bt_ltk where
  val : List Nat
  deriving DecidableEq, Repr

/-- Identity resolving key `struct bt_irk`. -/
structure bt_irk where
  val : List Nat
  deriving DecidableEq, Repr

/-- Modelled from the spec: `struct bt_keys` is declared in
`subsys/bluetooth/host/keys.h`, which is not part of the sample sources. The
fields are the ones `main.c` assigns, matching the KeyRecord of the data
model (peer, long term key, identity resolving key, flags, enc_size) plus the
identity index `id` and the key-type mask `keys`. -/
structure bt_keys where
  id : Nat
  addr : bt_addr_le_t
  enc_size : Nat
  flags : Nat
  keys : Nat
  ltk : bt_ltk
  irk : bt_irk
  deriving DecidableEq, Repr

/-- The key-type bits of `keys.h` that `main.c` names; their values are not
part of the sample sources and are taken as parameters. -/
structure KeysHdr where
  BT_KEYS_IRK : Nat
  BT_KEYS_LTK_P256 : Nat
  BT_KEYS_ALL : Nat
  deriving DecidableEq, Repr

/-- Zero-initialised key: `static struct bt_irk irk;`. -/
def bt_irk_zero : bt_irk := { val := List.replicate 16 0 }

/-- Zero-initialised record: `struct bt_keys keys = {0};`. -/
def bt_keys_zero : bt_keys :=
  { id := 0, addr := bt_addr_le_zero, enc_size := 0, flags := 0, keys := 0,
    ltk := { val := List.replicate 16 0 }, irk := bt_irk_zero }

/-- Modelled from the spec: the Key Store lives in
`subsys/bluetooth/host/keys.c`, outside the sample sources. It holds bonding
key records keyed by peer identity. -/
abbrev KeyStore := List bt_keys

/-- A stored record belongs to identity `id` and peer `addr`. -/
def sameSlot (id : Nat) (addr : bt_addr_le_t) (k : bt_keys) : Bool :=
  decide (k.id = id) && decide (k.addr = addr)

/-- Modelled from the spec: `bt_keys_clear` (absent `keys.c`). `clear(peer)`
removes the record of that peer; the full record is cleared, so the structure
handed in is zeroed as well. -/
def bt_keys_clear (ks : KeyStore) (keys : bt_keys) : KeyStore × bt_keys :=
  (ks.filter (fun k => !sameSlot keys.id keys.addr k), bt_keys_zero)

/-- Modelled from the spec: `bt_keys_store` (absent `keys.c`). `upsert(record)`
replaces any existing record for the same peer entirely, with no merge of
fields; without an existing record the new one is added. -/
def bt_keys_store (ks : KeyStore) (keys : bt_keys) : KeyStore :=
  if ks.any (sameSlot keys.id keys.addr) then
    ks.map (fun k => if sameSlot keys.id keys.addr k then keys else k)
  else ks ++ [keys]

/-- Modelled from the spec: `bt_keys_get_addr` (absent `keys.c`).
`lookup(peer)` yields the stored record if there is one; the result is the
position of the record, standing for the pointer into the store. -/
def bt_keys_get_addr (ks : KeyStore) (id : Nat) (addr : bt_addr_le_t) : Option Nat :=
  ks.findIdx? (sameSlot id addr)

/-- Modelled from the spec: `bt_keys_foreach` (absent `keys.c`).
`for_each(visitor)` is a finite traversal of a snapshot of the store taken at
call time; the visitor sees every record once, in store order. -/
def bt_keys_foreach {σ : Type} (ks : KeyStore) (_type : Nat)
    (func : σ → bt_keys → σ) (data : σ) : σ :=
  ks.foldl func data

/-- Calls that leave `main.c`, in program order. -/
inductive HrCall
  | printk (fmt : String) (args : List PArg)
  | bt_keys_foreach (type : Nat)
  | bt_keys_clear (keys : bt_keys)
  | bt_keys_store (keys : bt_keys)
  | bt_keys_get_addr (id : Nat) (addr : bt_addr_le_t)
  deriving DecidableEq, Repr

/-- Module state of `peripheral_hr/src/main.c`: the function-static
`first_time` of `security_changed`, the file-static `irk`, the Key Store and
the log of calls made so far. -/
structure HrState where
  first_time : Bool
  irk : bt_irk
  store : KeyStore
  log : List HrCall
  deriving DecidableEq, Repr

/-- Append one call to the log. -/
def HrState.emit (s : HrState) (c : HrCall) : HrState :=
  { s with log := s.log ++ [c] }

/-! ## peripheral_hr: callbacks -/

/-- Callback `connected(conn, err)`: logs only. -/
def connected (s : HrState) (_conn : bt_conn) (err : Nat) : HrState :=
  if err ≠ 0 then
    s.emit (.printk "Connection failed (err 0x%02x)\n" [.num err])
  else
    s.emit (.printk "Connected\n" [])

/-- Visitor `pending_id_keys_update_set(keys, flag)` handed to
`bt_keys_foreach`: copies the IRK of the visited record into the static `irk`. -/
def pending_id_keys_update_set (s : HrState) (keys : bt_keys) : HrState :=
  let s := s.emit (.printk "LTK iteratior: %02X\n" [.num (keys.ltk.val.getD 0 0)])
  { s with irk := keys.irk }

/-- Callback `disconnected(conn, reason)`. -/
def disconnected (K : KeysHdr) (s : HrState) (_conn : bt_conn) (reason : Nat) : HrState :=
  let s := s.emit (.printk "Disconnected (reason 0x%02x)\n" [.num reason])
  let s := s.emit (.bt_keys_foreach K.BT_KEYS_ALL)
  bt_keys_foreach s.store K.BT_KEYS_ALL pending_id_keys_update_set s

/-- Callback `security_changed(conn, level, err)`. -/
def security_changed (K : KeysHdr) (s : HrState) (conn : bt_conn) (level err : Nat) :
    HrState :=
  let keys : bt_keys := bt_keys_zero
  let s : HrState :=
    if err = 0 then
      s.emit (.printk "Security changed: %s level %u\n" [.addr conn.dst, .num level])
    else
      s.emit (.printk "Security failed: %s level %u err %d\n"
        [.addr conn.dst, .num level, .num err])
  if s.first_time then
    { s with first_time := false }
  else
    let keys : bt_keys := { keys with id := 0 }
    let keys : bt_keys := { keys with addr := conn.dst }
    let s : HrState := s.emit (.bt_keys_clear keys)
    let cleared : KeyStore × bt_keys := bt_keys_clear s.store keys
    let s : HrState := { s with store := cleared.1 }
    let keys : bt_keys := cleared.2
    let keys : bt_keys := { keys with id := 0 }
    let keys : bt_keys := { keys with enc_size := 0x10 }
    let keys : bt_keys := { keys with flags := 0x10 }
    let keys : bt_keys := { keys with keys := K.BT_KEYS_LTK_P256 ||| K.BT_KEYS_IRK }
    let keys : bt_keys := { keys with irk := s.irk }
    let keys : bt_keys := { keys with ltk := { val := keys.ltk.val.set 0 0xDE } }
    let keys : bt_keys := { keys with ltk := { val := keys.ltk.val.set 1 0xAD } }
    let keys : bt_keys := { keys with ltk := { val := keys.ltk.val.set 2 0xBE } }
    let keys : bt_keys := { keys with ltk := { val := keys.ltk.val.set 3 0xEF } }
    let keys : bt_keys := { keys with addr := conn.dst }
    let s : HrState := s.emit (.bt_keys_store keys)
    let s : HrState := { s with store := bt_keys_store s.store keys }
    let s : HrState := s.emit (.printk "Storing keys\n" [])
    let s : HrState := s.emit (.bt_keys_get_addr 0 conn.dst)
    match bt_keys_get_addr s.store 0 conn.dst with
    | some i => { s with store := s.store.modify (fun k => { k with ltk := keys.ltk }) i }
    | none => s.emit (.printk "Keys not found\n" [])

/-- Events delivered through `conn_callbacks`. -/
inductive HrEvent
  | connected (conn : bt_conn) (err : Nat)
  | disconnected (conn : bt_conn) (reason : Nat)
  | security_changed (conn : bt_conn) (level err : Nat)
  deriving DecidableEq, Repr

/-- Dispatch of one event to its callback. -/
def hr_step (K : KeysHdr) (s : HrState) : HrEvent → HrState
  | .connected conn err => connected s conn err
  | .disconnected conn reason => disconnected K s conn reason
  | .security_changed conn level err => security_changed K s conn level err

/-- Events are handled one at a time, in arrival order. -/
def hr_run (K : KeysHdr) (s : HrState) (evs : List HrEvent) : HrState :=
  evs.foldl (hr_step K) s

/-- State when the callbacks are registered: `first_time` is true, `irk` is
zero, the store holds whatever `settings_load` restored, nothing is logged. -/
def hr_init (ks : KeyStore) : HrState :=
  { first_time := true, irk := bt_irk_zero, store := ks, log := [] }

/-- Number of `bt_keys_store` calls in a log. -/
def storeCount (l : List HrCall) : Nat :=
  (l.filter (fun c => match c with | .bt_keys_store _ => true | _ => false)).length

/-- Number of `bt_keys_clear` calls in a log. -/
def clearCount (l : List HrCall) : Nat :=
  (l.filter (fun c => match c with | .bt_keys_clear _ => true | _ => false)).length

/-- The calls an event handler added when it took state `s` to state `t`. -/
def callsSince (s t : HrState) : List HrCall := t.log.drop s.log.length

/-- The record built by the key refresh for peer `P` from the cached IRK. -/
def refreshed (K : KeysHdr) (P : bt_addr_le_t) (irk : bt_irk) : bt_keys :=
  { id := 0, addr := P, enc_size := 0x10, flags := 0x10,
    keys := K.BT_KEYS_LTK_P256 ||| K.BT_KEYS_IRK,
    ltk := { val := [0xDE, 0xAD, 0xBE, 0xEF, 0, 0, 0, 0, 0, 0, 0, 0, 0, 0, 0, 0] },
    irk := irk }

/-- The log line `security_changed` starts with. -/
def secMsg (conn : bt_conn) (level err : Nat) : HrCall :=
  if err = 0 then
    .printk "Security changed: %s level %u\n" [.addr conn.dst, .num level]
  else
    .printk "Security failed: %s level %u err %d\n" [.addr conn.dst, .num level, .num err]

/-- The event is a `SecurityChanged` notification. -/
def isSec : HrEvent → Bool
  | .security_changed _ _ _ => true
  | _ => false

/-- A run of `SecurityChanged` notifications, each with its connection,
level and error code. -/
def secEvents (ns : List (bt_conn × Nat × Nat)) : List HrEvent :=
  ns.map (fun n => HrEvent.security_changed n.1 n.2.1 n.2.2)

/-- The event is a successful `LinkConnected`. -/
def isConnect : HrEvent → Bool
  | .connected _ err => decide (err = 0)
  | _ => false

/-- The events of the current session: those after the last successful
`LinkConnected`. -/
def sinceConnect (pre : List HrEvent) : List HrEvent :=
  (pre.reverse.takeWhile (fun e => !isConnect e)).reverse

/-- A session has been established and no `SecurityChanged` has been seen in
it yet. -/
def freshSession (pre : List HrEvent) : Bool :=
  pre.any isConnect && !(sinceConnect pre).any isSec

/-- The call writes to the Key Store. -/
def isKeyWrite : HrCall → Bool
  | .bt_keys_clear _ => true
  | .bt_keys_store _ => true
  | _ => false

/-- Key-type bits used for the concrete runs below. -/
def K0 : KeysHdr := { BT_KEYS_IRK := 2, BT_KEYS_LTK_P256 := 32, BT_KEYS_ALL := 63 }

/-- A peer address used for the concrete runs below. -/
def P0 : bt_addr_le_t := { type := 1, a := [0xC9, 0xC1, 0x95, 0x39, 0x4E, 0xE2] }

/-- A connection to `P0`. -/
def c0 : bt_conn := { handle := 1, dst := P0 }

/-- First session with one notification, disconnect, then a second session. -/
def secondSession : List HrEvent :=
  [.connected c0 0, .security_changed c0 2 0, .disconnected c0 0x13, .connected c0 0]

/-- A state past the first notification whose store already holds a record
for `P0` with other flags, size, key types, LTK and IRK. -/
def sBonded : HrState :=
  { first_time := false,
    irk := { val := [1, 2, 3, 4, 5, 6, 7, 8, 9, 10, 11, 12, 13, 14, 15, 16] },
    store := [{ id := 0, addr := P0, enc_size := 7, flags := 0xFF, keys := 1,
                ltk := { val := List.replicate 16 0x55 },
                irk := { val := List.replicate 16 0x77 } }],
    log := [] }

end PeripheralHr

namespace PeripheralDis

/-! ## peripheral_dis: data model -/

/-- Constants that `main.c` takes from `board.h` and the Bluetooth headers;
their values are not part of the sample sources and are taken as parameters. -/
structure Board where
  SW0_GPIO_PIN : Nat
  SW1_GPIO_PIN : Nat
  SW2_GPIO_PIN : Nat
  SW3_GPIO_PIN : Nat
  BT_ADDR_LE_RANDOM : Nat
  deriving DecidableEq, Repr

/-- The two advertising parameter sets `advertising_start` chooses between:
high duty cycle and low duty cycle directed advertising. -/
inductive AdvParam
  | BT_LE_ADV_CONN_DIR
  | BT_LE_ADV_CONN_DIR_LOW_DUTY
  deriving DecidableEq, Repr

/-- The two delayed work items of `main.c`. -/
inductive Work
  | advertising_work
  | disconnect_work
  deriving DecidableEq, Repr

/-- The disconnect reason `disconnect_init_wrapper` passes on. -/
inductive HciErr
  | BT_HCI_ERR_CONN_ACCEPT_TIMEOUT
  deriving DecidableEq, Repr

/-- The constant `static const bt_addr_le_t peer_addr`. -/
def peer_addr (B : Board) : bt_addr_le_t :=
  { type := B.BT_ADDR_LE_RANDOM, a := [0xC9, 0xC1, 0x95, 0x39, 0x4E, 0xE2] }

/-- Calls that leave `main.c`, in program order. `bt_conn_create_slave_le`
is logged with the pointer it returned. -/
inductive DisCall
  | printk (fmt : String) (args : List PArg)
  | bt_conn_create_slave_le (peer : bt_addr_le_t) (param : AdvParam) (ret : Option bt_conn)
  | bt_conn_unref (conn : Option bt_conn)
  | bt_conn_disconnect (conn : Option bt_conn) (reason : HciErr)
  | k_delayed_work_submit (work : Work) (delay : Nat)
  | k_delayed_work_init (work : Work)
  | gpio_pin_configure (port pin : Nat)
  | gpio_init_callback (port mask : Nat)
  | gpio_add_callback (port : Nat)
  | gpio_pin_enable_callback (port pin : Nat)
  | bt_enable
  | dis_init
  | bt_conn_cb_register
  deriving DecidableEq, Repr

/-- Module state of `peripheral_dis/src/main.c`: `default_conn` (`none` is
NULL), `is_high_duty`, for each delayed work item the delay it is pending
with (`none` when idle), and the log of calls made so far. -/
structure DisState where
  default_conn : Option bt_conn
  is_high_duty : Bool
  advertising_work : Option Nat
  disconnect_work : Option Nat
  log : List DisCall
  deriving DecidableEq, Repr

/-- Append one call to the log. -/
def DisState.emit (s : DisState) (c : DisCall) : DisState :=
  { s with log := s.log ++ [c] }

/-- Modelled from the spec: `k_delayed_work_submit` belongs to the kernel,
outside the sample sources. A scheduled re-arm is a timer-backed event; a
newer submission supersedes the pending one. -/
def k_delayed_work_submit (s : DisState) (w : Work) (delay : Nat) : DisState :=
  let s : DisState := s.emit (.k_delayed_work_submit w delay)
  match w with
  | .advertising_work => { s with advertising_work := some delay }
  | .disconnect_work => { s with disconnect_work := some delay }

/-- The test `pins & (1 << pin)` on a 32-bit mask. -/
def pinSet (pins pin : Nat) : Bool :=
  (pins &&& ((1 <<< pin) % 2 ^ 32)) != 0

/-! ## peripheral_dis: handlers -/

/-- Function `advertising_start()`; `ret` is what `bt_conn_create_slave_le` returns. -/
def advertising_start (B : Board) (s : DisState) (ret : Option bt_conn) : DisState :=
  let s : DisState :=
    if s.is_high_duty then
      { s.emit (.bt_conn_create_slave_le (peer_addr B) .BT_LE_ADV_CONN_DIR ret) with
        default_conn := ret }
    else
      { s.emit (.bt_conn_create_slave_le (peer_addr B) .BT_LE_ADV_CONN_DIR_LOW_DUTY ret) with
        default_conn := ret }
  if s.default_conn.isNone then
    s.emit (.printk "Advertising failed to start\n" [])
  else
    s.emit (.printk "Advertising successfully started: %08X\n" [.conn s.default_conn])

/-- Function `advertising_init_wrapper(work)`: handler of `advertising_work`. -/
def advertising_init_wrapper (B : Board) (s : DisState) (ret : Option bt_conn) : DisState :=
  if s.default_conn.isNone then advertising_start B s ret else s

/-- Callback `connected(conn, err)`. -/
def connected (s : DisState) (conn : bt_conn) (err : Nat) : DisState :=
  if err ≠ 0 then
    let s : DisState := s.emit (.bt_conn_unref s.default_conn)
    let s : DisState := { s with default_conn := none }
    s.emit (.printk "Failed to connect to %s (%u)\n" [.addr conn.dst, .num err])
  else
    let s : DisState := s.emit (.printk "Connected %s\n" [.addr conn.dst])
    s.emit (.printk "Conn: %08X\n" [.conn (some conn)])

/-- Callback `disconnected(conn, reason)`. -/
def disconnected (s : DisState) (conn : bt_conn) (reason : Nat) : DisState :=
  let s : DisState :=
    s.emit (.printk "Disconnected from %s (reason %u)\n" [.addr conn.dst, .num reason])
  let s : DisState := s.emit (.bt_conn_unref s.default_conn)
  let s : DisState := { s with default_conn := none }
  k_delayed_work_submit s .advertising_work 100

/-- Function `disconnect_init_wrapper(work)`: handler of `disconnect_work`. -/
def disconnect_init_wrapper (s : DisState) : DisState :=
  if s.default_conn.isSome then
    let s : DisState :=
      s.emit (.printk "%s(): Disconnecting\n" [.str "disconnect_init_wrapper"])
    let s : DisState :=
      s.emit (.bt_conn_disconnect s.default_conn .BT_HCI_ERR_CONN_ACCEPT_TIMEOUT)
    s.emit (.printk "%s(): Disconnected\n" [.str "disconnect_init_wrapper"])
  else s

/-- Callback `button_pressed(gpio_dev, cb, pins)`. -/
def button_pressed (B : Board) (s : DisState) (pins : Nat) : DisState :=
  let s : DisState :=
    if pinSet pins B.SW0_GPIO_PIN then
      let s : DisState :=
        s.emit (.printk "%s(): Disconnecting req\n" [.str "button_pressed"])
      k_delayed_work_submit s .disconnect_work 100
    else s
  let s : DisState :=
    if pinSet pins B.SW1_GPIO_PIN then
      let s : DisState :=
        s.emit (.printk "%s(): Low Advertising req\n" [.str "button_pressed"])
      let s : DisState := { s with is_high_duty := false }
      k_delayed_work_submit s .advertising_work 100
    else s
  if pinSet pins B.SW2_GPIO_PIN then
    let s : DisState :=
      s.emit (.printk "%s(): High Advertising req\n" [.str "button_pressed"])
    let s : DisState := { s with is_high_duty := true }
    k_delayed_work_submit s .advertising_work 100
  else s

/-- The pin of button `i`, from the table `pin_id` of `configure_buttons`. -/
def pin_id (B : Board) (i : Nat) : Nat :=
  [B.SW0_GPIO_PIN, B.SW1_GPIO_PIN, B.SW2_GPIO_PIN, B.SW3_GPIO_PIN].getD i 0

/-- Function `configure_buttons()`; `bound i` tells whether `device_get_binding` found
the port of button `i`. -/
def configure_buttons (B : Board) (bound : Nat → Bool) (s : DisState) : DisState :=
  (List.range 4).foldl (fun (s : DisState) (i : Nat) =>
    if bound i then
      let s : DisState :=
        s.emit (.printk "%s(): port %zu bound\n" [.str "configure_buttons", .num i])
      let s : DisState := s.emit (.gpio_pin_configure i (pin_id B i))
      let s : DisState := s.emit (.gpio_init_callback i ((1 <<< pin_id B i) % 2 ^ 32))
      let s : DisState := s.emit (.gpio_add_callback i)
      s.emit (.gpio_pin_enable_callback i (pin_id B i))
    else s) s

/-- The statics of `main.c` before `main` runs. -/
def dis_boot : DisState :=
  { default_conn := none, is_high_duty := false, advertising_work := none,
    disconnect_work := none, log := [] }

/-- Function `main()`; `enable_err` is what `bt_enable` returns and `ret` what the
first `bt_conn_create_slave_le` returns. -/
def main (B : Board) (bound : Nat → Bool) (enable_err : Int) (ret : Option bt_conn) :
    DisState :=
  let s : DisState := configure_buttons B bound dis_boot
  let s : DisState := s.emit .bt_enable
  if enable_err ≠ 0 then
    s.emit (.printk "Bluetooth init failed (err %d)\n" [.int enable_err])
  else
    let s : DisState := s.emit (.printk "Bluetooth initialized\n" [])
    let s : DisState := s.emit (.k_delayed_work_init .advertising_work)
    let s : DisState := s.emit (.k_delayed_work_init .disconnect_work)
    let s : DisState := s.emit .dis_init
    let s : DisState := s.emit .bt_conn_cb_register
    advertising_start B s ret

/-- Events after start-up. A timer expiry carries what the lower layer would
answer if the handler asked it for a connection object. -/
inductive DisEvent
  | button_pressed (pins : Nat)
  | advertising_work_expiry (ret : Option bt_conn)
  | disconnect_work_expiry
  | connected (conn : bt_conn) (err : Nat)
  | disconnected (conn : bt_conn) (reason : Nat)
  deriving DecidableEq, Repr

/-- Dispatch of one event. An expiry runs the handler of a pending work item
and leaves the item idle; without a pending item nothing fires. -/
def dis_step (B : Board) (s : DisState) : DisEvent → DisState
  | .button_pressed pins => button_pressed B s pins
  | .advertising_work_expiry ret =>
    match s.advertising_work with
    | some _ => advertising_init_wrapper B { s with advertising_work := none } ret
    | none => s
  | .disconnect_work_expiry =>
    match s.disconnect_work with
    | some _ => disconnect_init_wrapper { s with disconnect_work := none }
    | none => s
  | .connected conn err => connected s conn err
  | .disconnected conn reason => disconnected s conn reason

/-- Events are handled one at a time, in arrival order. -/
def dis_run (B : Board) (s : DisState) (evs : List DisEvent) : DisState :=
  evs.foldl (dis_step B) s

/-- The calls a handler added when it took state `s` to state `t`. -/
def callsSince (s t : DisState) : List DisCall := t.log.drop s.log.length

/-- Everything but the log: handle, duty cycle and the two schedules. -/
def DisState.control (s : DisState) : Option bt_conn × Bool × Option Nat × Option Nat :=
  (s.default_conn, s.is_high_duty, s.advertising_work, s.disconnect_work)

/-- The start requests in a log. -/
def startRequests (l : List DisCall) : List DisCall :=
  l.filter (fun c => match c with | .bt_conn_create_slave_le _ _ _ => true | _ => false)

/-- The work submissions in a log. -/
def submissions (l : List DisCall) : List DisCall :=
  l.filter (fun c => match c with | .k_delayed_work_submit _ _ => true | _ => false)

/-- The calls of a log other than console output. -/
def apiCalls (l : List DisCall) : List DisCall :=
  l.filter (fun c => match c with | .printk _ _ => false | _ => true)

/-- Connection objects handed out by `bt_conn_create_slave_le`. -/
def created (l : List DisCall) : Nat :=
  (l.filter (fun c => match c with
    | .bt_conn_create_slave_le _ _ (some _) => true | _ => false)).length

/-- Connection objects given back through `bt_conn_unref`. -/
def released (l : List DisCall) : Nat :=
  (l.filter (fun c => match c with | .bt_conn_unref (some _) => true | _ => false)).length

/-- The pin masks of the button events of a run, oldest first. -/
def buttonMasks (evs : List DisEvent) : List Nat :=
  evs.filterMap (fun e => match e with | .button_pressed pins => some pins | _ => none)

/-- Duty-cycle choice as the specification words it: the choice of the most
recent button event whose mask contained SW1 (low) or SW2 (high), SW2 winning
when one mask contains both; the default when there is no such event. -/
def spec_duty_choice (B : Board) (dflt : Bool) (masks : List Nat) : Bool :=
  match masks.reverse.find? (fun m => pinSet m B.SW1_GPIO_PIN || pinSet m B.SW2_GPIO_PIN) with
  | some m => pinSet m B.SW2_GPIO_PIN
  | none => dflt

/-- Board constants used for the concrete runs below. -/
def B0 : Board :=
  { SW0_GPIO_PIN := 13, SW1_GPIO_PIN := 14, SW2_GPIO_PIN := 15, SW3_GPIO_PIN := 16,
    BT_ADDR_LE_RANDOM := 1 }

/-- A connection object for the configured peer. -/
def c1 : bt_conn := { handle := 1, dst := peer_addr B0 }

/-- State after a start-up in which every port bound, `bt_enable` succeeded
and the first start request returned `c1`. -/
def sStarted : DisState := main B0 (fun _ => true) 0 (some c1)

/-- Handles handed out and not given back are exactly the one in
`default_conn`, if any. -/
def Balanced (s : DisState) : Prop :=
  created s.log = released s.log + s.default_conn.elim 0 (fun _ => 1)

end PeripheralDis

namespace AdvertisingSets

/-! ## advertising_sets: data model -/

/-- One advertising element `struct bt_data`: a type tag and its payload. -/
structure bt_data where
  type : Nat
  data : List Nat
  deriving DecidableEq, Repr

/-- The fields of `struct bt_le_adv_param` that `main.c` assigns or prints. -/
structure bt_le_adv_param where
  id : Nat
  sid : Nat
  options : Nat
  interval_min : Nat
  interval_max : Nat
  deriving DecidableEq, Repr

/-- The extended advertising interface of the lower layer, over its own state
`σ`. `bt_le_ext_adv_create` yields an error code and the set handle it wrote
through the out parameter; the other two yield an error code. -/
structure ExtAdv (σ : Type) where
  bt_le_ext_adv_create : σ → bt_le_adv_param → Int × Nat × σ
  bt_le_ext_adv_set_data : σ → Nat → List bt_data → Int × σ
  bt_le_ext_adv_start : σ → Nat → Int × σ

/-- Calls that leave `bt_ext_advertising_start`, each with the code returned. -/
inductive AdvCall
  | printk (fmt : String) (args : List PArg)
  | bt_le_ext_adv_create (param : bt_le_adv_param) (ret : Int)
  | bt_le_ext_adv_set_data (adv : Nat) (ad : List bt_data) (ret : Int)
  | bt_le_ext_adv_start (adv : Nat) (ret : Int)
  deriving DecidableEq, Repr

/-- What a call of `bt_ext_advertising_start` leaves behind: the value
returned, the state of the lower layer and the calls made. -/
structure StartResult (σ : Type) where
  ret : Int
  ll : σ
  log : List AdvCall

/-- Function `bt_ext_advertising_start(param, ad, ad_len)`; the start parameters handed
to `bt_le_ext_adv_start` are the zeroed structure. -/
def bt_ext_advertising_start {σ : Type} (L : ExtAdv σ) (ll : σ)
    (param : bt_le_adv_param) (ad : List bt_data) : StartResult σ :=
  let created : Int × Nat × σ := L.bt_le_ext_adv_create ll param
  let err : Int := created.1
  let adv_set : Nat := created.2.1
  let ll : σ := created.2.2
  let log : List AdvCall := [.bt_le_ext_adv_create param err]
  if err ≠ 0 then
    { ret := err, ll := ll,
      log := log ++ [.printk "Could not create %d advertising set (err %d)\n"
        [.num param.sid, .int err]] }
  else
    let dataSet : Int × σ := L.bt_le_ext_adv_set_data ll adv_set ad
    let err : Int := dataSet.1
    let ll : σ := dataSet.2
    let log : List AdvCall := log ++ [.bt_le_ext_adv_set_data adv_set ad err]
    if err ≠ 0 then
      { ret := err, ll := ll,
        log := log ++ [.printk "Could not set data for %d advertising set (err %d)\n"
          [.num param.sid, .int err]] }
    else
      let started : Int × σ := L.bt_le_ext_adv_start ll adv_set
      let err : Int := started.1
      let ll : σ := started.2
      let log : List AdvCall := log ++ [.bt_le_ext_adv_start adv_set err]
      if err ≠ 0 then
        { ret := err, ll := ll,
          log := log ++ [.printk "Advertising for set %d failed to start (err %d)\n"
            [.num param.sid, .int err]] }
      else
        { ret := err, ll := ll,
          log := log ++ [.printk "Extended advertising with set %d successfully started\n"
            [.num param.sid]] }

/-- The three steps of starting an advertising set. -/
inductive Step
  | create
  | set_data
  | start
  deriving DecidableEq, Repr

/-- The steps performed according to a log, in order, each with the code the
lower layer returned. -/
def steps (l : List AdvCall) : List (Step × Int) :=
  l.filterMap (fun c => match c with
    | .bt_le_ext_adv_create _ r => some (Step.create, r)
    | .bt_le_ext_adv_set_data _ _ r => some (Step.set_data, r)
    | .bt_le_ext_adv_start _ r => some (Step.start, r)
    | .printk _ _ => none)

/-- State of the lower layer after the first `n` steps of the sequence create,
set-data, start have run on it, each step starting from the state the step
before left and using the set handle that create returned. -/
def llAfter {σ : Type} (L : ExtAdv σ) (ll : σ) (param : bt_le_adv_param)
    (ad : List bt_data) : Nat → σ
  | 0 => ll
  | 1 => (L.bt_le_ext_adv_create ll param).2.2
  | 2 => (L.bt_le_ext_adv_set_data (L.bt_le_ext_adv_create ll param).2.2
      (L.bt_le_ext_adv_create ll param).2.1 ad).2
  | _ + 3 => (L.bt_le_ext_adv_start
      (L.bt_le_ext_adv_set_data (L.bt_le_ext_adv_create ll param).2.2
        (L.bt_le_ext_adv_create ll param).2.1 ad).2
      (L.bt_le_ext_adv_create ll param).2.1).2

/-- The calls of a log that reach the lower layer, with their arguments. -/
def layerCalls (l : List AdvCall) : List AdvCall :=
  l.filter (fun c => match c with | .printk _ _ => false | _ => true)

/-- A lower layer whose state is the number of free advertising contexts:
`create` fails with -12 when none is free. -/
def poolLayer : ExtAdv Nat :=
  { bt_le_ext_adv_create := fun free _ => if free = 0 then (-12, 0, free) else (0, free, free - 1),
    bt_le_ext_adv_set_data := fun free _ _ => (0, free),
    bt_le_ext_adv_start := fun free _ => (0, free) }

/-- Parameters of the connectable set of `bt_ready`, with the option bits left
symbolic as zero. -/
def param0 : bt_le_adv_param :=
  { id := 0, sid := 0, options := 0, interval_min := 0, interval_max := 0 }

end AdvertisingSets

namespace PeripheralHr

/-! ## Theorems, peripheral_hr: key refresh gating and IRK provenance -/

theorem sameSlot_self (k : bt_keys) : sameSlot k.id k.addr k = true := by
  simp [sameSlot]

theorem modify_findIdx_fix {α : Type} (p : α → Bool) (f : α → α) :
    ∀ (l : List α) (i : Nat), (∀ x ∈ l, p x = true → f x = x) →
      l.findIdx? p = some i → l.modify f i = l := by
  intro l
  induction l with
  | nil => intro i _ h; simp at h
  | cons a l ih =>
    intro i hfix h
    rw [List.findIdx?_cons] at h
    by_cases hp : p a = true
    · simp [hp] at h
      subst h
      simp [hfix a (by simp) hp]
    · simp [hp] at h
      obtain ⟨j, hj, rfl⟩ := h
      simp [ih j (fun x hx => hfix x (by simp [hx])) hj]

theorem security_changed_first (K : KeysHdr) (s : HrState) (conn : bt_conn)
    (level err : Nat) (h : s.first_time = true) :
    security_changed K s conn level err =
      { s with first_time := false, log := s.log ++ [secMsg conn level err] } := by
  unfold security_changed secMsg
  by_cases he : err = 0 <;> simp [he, h, HrState.emit]

theorem security_changed_later (K : KeysHdr) (s : HrState) (conn : bt_conn)
    (level err : Nat) (h : s.first_time = false) :
    security_changed K s conn level err =
      { first_time := false, irk := s.irk,
        store := s.store.filter (fun k => !sameSlot 0 conn.dst k) ++
          [refreshed K conn.dst s.irk],
        log := s.log ++ [secMsg conn level err,
          .bt_keys_clear { bt_keys_zero with addr := conn.dst },
          .bt_keys_store (refreshed K conn.dst s.irk),
          .printk "Storing keys\n" [],
          .bt_keys_get_addr 0 conn.dst] } := by
  have hany : (s.store.filter (fun k => !sameSlot 0 conn.dst k)).any
      (sameSlot 0 conn.dst) = false := by
    simp [List.any_eq_false]
  have hfind : ∃ i, bt_keys_get_addr (s.store.filter (fun k => !sameSlot 0 conn.dst k) ++
      [refreshed K conn.dst s.irk]) 0 conn.dst = some i := by
    have : (bt_keys_get_addr (s.store.filter (fun k => !sameSlot 0 conn.dst k) ++
      [refreshed K conn.dst s.irk]) 0 conn.dst).isSome = true := by
      unfold bt_keys_get_addr
      rw [List.findIdx?_isSome]
      simp [sameSlot, refreshed]
    exact Option.isSome_iff_exists.mp this
  obtain ⟨i, hi⟩ := hfind
  have hmod : (s.store.filter (fun k => !sameSlot 0 conn.dst k) ++
      [refreshed K conn.dst s.irk]).modify
        (fun k => { k with ltk := (refreshed K conn.dst s.irk).ltk }) i =
      s.store.filter (fun k => !sameSlot 0 conn.dst k) ++ [refreshed K conn.dst s.irk] := by
    apply modify_findIdx_fix (sameSlot 0 conn.dst) _ _ i _ hi
    intro x hx hp
    rcases List.mem_append.mp hx with hx | hx
    · simp [hp] at hx
    · simp at hx
      subst hx
      rfl
  unfold security_changed secMsg
  by_cases he : err = 0
  · simp only [refreshed] at hi hmod ⊢
    simp [he, h, HrState.emit, bt_keys_clear, bt_keys_store, bt_keys_zero, bt_addr_le_zero,
      hi, hmod]
  · simp only [refreshed] at hi hmod ⊢
    simp [he, h, HrState.emit, bt_keys_clear, bt_keys_store, bt_keys_zero, bt_addr_le_zero,
      hi, hmod]

theorem storeCount_append (a b : List HrCall) :
    storeCount (a ++ b) = storeCount a + storeCount b := by
  simp [storeCount]

theorem clearCount_append (a b : List HrCall) :
    clearCount (a ++ b) = clearCount a + clearCount b := by
  simp [clearCount]

theorem callsSince_append (s t : HrState) (d : List HrCall) (h : t.log = s.log ++ d) :
    callsSince s t = d := by
  simp [callsSince, h]

/-- The traversal started by `disconnected`: one log line per record, the
cached IRK ends as the IRK of the last record, nothing else changes. -/
theorem foreach_pending (ks : KeyStore) (type : Nat) :
    ∀ s : HrState,
      bt_keys_foreach ks type pending_id_keys_update_set s =
        { s with
          irk := match ks.getLast? with
            | some k => k.irk
            | none => s.irk
          log := s.log ++ ks.map (fun k =>
            HrCall.printk "LTK iteratior: %02X\n" [.num (k.ltk.val.getD 0 0)]) } := by
  induction ks with
  | nil => intro s; simp [bt_keys_foreach]
  | cons k ks ih =>
    intro s
    have hstep : bt_keys_foreach (k :: ks) type pending_id_keys_update_set s =
        bt_keys_foreach ks type pending_id_keys_update_set
          (pending_id_keys_update_set s k) := by
      simp [bt_keys_foreach]
    rw [hstep, ih]
    cases ks with
    | nil => simp [pending_id_keys_update_set, HrState.emit]
    | cons k2 ks2 =>
      obtain ⟨x, hx⟩ : ∃ x, (k2 :: ks2).getLast? = some x :=
        ⟨_, List.getLast?_eq_getLast _ (by simp)⟩
      simp [pending_id_keys_update_set, HrState.emit, List.getLast?_cons_cons, hx]

theorem hr_disconnected_eq (K : KeysHdr) (s : HrState) (conn : bt_conn) (reason : Nat) :
    disconnected K s conn reason =
      { s with
        irk := match s.store.getLast? with
          | some k => k.irk
          | none => s.irk
        log := s.log ++ ([HrCall.printk "Disconnected (reason 0x%02x)\n" [.num reason],
          HrCall.bt_keys_foreach K.BT_KEYS_ALL] ++ s.store.map (fun k =>
            HrCall.printk "LTK iteratior: %02X\n" [.num (k.ltk.val.getD 0 0)])) } := by
  unfold disconnected
  simp only [foreach_pending]
  simp [HrState.emit]

theorem storeCount_ltk_lines (ks : KeyStore) :
    storeCount (ks.map (fun k =>
      HrCall.printk "LTK iteratior: %02X\n" [.num (k.ltk.val.getD 0 0)])) = 0 := by
  induction ks with
  | nil => rfl
  | cons k ks ih => simp [storeCount]

theorem clearCount_ltk_lines (ks : KeyStore) :
    clearCount (ks.map (fun k =>
      HrCall.printk "LTK iteratior: %02X\n" [.num (k.ltk.val.getD 0 0)])) = 0 := by
  induction ks with
  | nil => rfl
  | cons k ks ih => simp [clearCount]

theorem storeCount_secMsg (conn : bt_conn) (level err : Nat) :
    storeCount [secMsg conn level err] = 0 := by
  unfold secMsg; by_cases he : err = 0 <;> simp [he, storeCount]

theorem clearCount_secMsg (conn : bt_conn) (level err : Nat) :
    clearCount [secMsg conn level err] = 0 := by
  unfold secMsg; by_cases he : err = 0 <;> simp [he, clearCount]

/-- What one `security_changed` call adds to the log, by the value of
`first_time` it finds. -/
theorem security_changed_calls (K : KeysHdr) (s : HrState) (conn : bt_conn)
    (level err : Nat) :
    (security_changed K s conn level err).first_time = false ∧
    (security_changed K s conn level err).irk = s.irk ∧
    (security_changed K s conn level err).log =
      s.log ++ callsSince s (security_changed K s conn level err) ∧
    storeCount (callsSince s (security_changed K s conn level err)) =
      (if s.first_time then 0 else 1) ∧
    clearCount (callsSince s (security_changed K s conn level err)) =
      (if s.first_time then 0 else 1) := by
  cases h : s.first_time with
  | true =>
    have e := security_changed_first K s conn level err h
    have hl : (security_changed K s conn level err).log =
        s.log ++ [secMsg conn level err] := by rw [e]
    rw [callsSince_append s _ _ hl]
    refine ⟨by rw [e], by rw [e], hl, ?_, ?_⟩
    · simpa using storeCount_secMsg conn level err
    · simpa using clearCount_secMsg conn level err
  | false =>
    have e := security_changed_later K s conn level err h
    have hl : (security_changed K s conn level err).log =
        s.log ++ [secMsg conn level err,
          .bt_keys_clear { bt_keys_zero with addr := conn.dst },
          .bt_keys_store (refreshed K conn.dst s.irk),
          .printk "Storing keys\n" [],
          .bt_keys_get_addr 0 conn.dst] := by rw [e]
    rw [callsSince_append s _ _ hl]
    refine ⟨by rw [e], by rw [e], hl, ?_, ?_⟩
    · have := storeCount_secMsg conn level err
      simp [storeCount] at this ⊢
      simp [this]
    · have := clearCount_secMsg conn level err
      simp [clearCount] at this ⊢
      simp [this]

/-- What one event adds to the log and does to `first_time`. -/
theorem hr_step_calls (K : KeysHdr) (s : HrState) (ev : HrEvent) :
    (hr_step K s ev).first_time = (s.first_time && !isSec ev) ∧
    (hr_step K s ev).log = s.log ++ callsSince s (hr_step K s ev) ∧
    storeCount (callsSince s (hr_step K s ev)) =
      (if isSec ev && !s.first_time then 1 else 0) ∧
    clearCount (callsSince s (hr_step K s ev)) =
      (if isSec ev && !s.first_time then 1 else 0) := by
  cases ev with
  | connected conn err =>
    have hl : (hr_step K s (.connected conn err)).log = s.log ++
        [if err ≠ 0 then HrCall.printk "Connection failed (err 0x%02x)\n" [.num err]
          else HrCall.printk "Connected\n" []] := by
      by_cases he : err = 0 <;> simp [hr_step, connected, he, HrState.emit]
    rw [callsSince_append s _ _ hl]
    refine ⟨?_, hl, ?_, ?_⟩
    · by_cases he : err = 0 <;> simp [hr_step, connected, he, HrState.emit, isSec]
    · by_cases he : err = 0 <;> simp [he, storeCount, isSec]
    · by_cases he : err = 0 <;> simp [he, clearCount, isSec]
  | disconnected conn reason =>
    have e := hr_disconnected_eq K s conn reason
    have hl : (hr_step K s (.disconnected conn reason)).log = s.log ++
        ([HrCall.printk "Disconnected (reason 0x%02x)\n" [.num reason],
          HrCall.bt_keys_foreach K.BT_KEYS_ALL] ++ s.store.map (fun k =>
            HrCall.printk "LTK iteratior: %02X\n" [.num (k.ltk.val.getD 0 0)])) := by
      simp only [hr_step]; rw [e]
    rw [callsSince_append s _ _ hl]
    refine ⟨?_, hl, ?_, ?_⟩
    · simp only [hr_step]; rw [e]; simp [isSec]
    · rw [storeCount_append, storeCount_ltk_lines]; simp [storeCount, isSec]
    · rw [clearCount_append, clearCount_ltk_lines]; simp [clearCount, isSec]
  | security_changed conn level err =>
    obtain ⟨h1, _, h3, h4, h5⟩ := security_changed_calls K s conn level err
    refine ⟨?_, h3, ?_, ?_⟩
    · simpa [hr_step, isSec] using h1
    · simp only [hr_step]; rw [h4]; cases s.first_time <;> simp [isSec]
    · simp only [hr_step]; rw [h5]; cases s.first_time <;> simp [isSec]

theorem hr_run_cons (K : KeysHdr) (s : HrState) (ev : HrEvent) (evs : List HrEvent) :
    hr_run K s (ev :: evs) = hr_run K (hr_step K s ev) evs := rfl

theorem hr_run_snoc (K : KeysHdr) (s : HrState) (evs : List HrEvent) (ev : HrEvent) :
    hr_run K s (evs ++ [ev]) = hr_step K (hr_run K s evs) ev := by
  simp [hr_run]

/-- The flag `first_time` is still true exactly when it was true at the start and no
`SecurityChanged` has been handled since. -/
theorem hr_run_first_time (K : KeysHdr) (evs : List HrEvent) :
    ∀ s : HrState, (hr_run K s evs).first_time = (s.first_time && !evs.any isSec) := by
  induction evs with
  | nil => intro s; simp [hr_run]
  | cons ev evs ih =>
    intro s
    rw [hr_run_cons, ih, (hr_step_calls K s ev).1]
    cases hf : s.first_time <;> cases he : isSec ev <;> simp [he]

/-- Stores performed by a run: one per `SecurityChanged`, less the one that
consumed `first_time`. -/
theorem hr_run_storeCount (K : KeysHdr) (evs : List HrEvent) :
    ∀ s : HrState,
      storeCount (hr_run K s evs).log + (if s.first_time && evs.any isSec then 1 else 0) =
        storeCount s.log + (evs.filter isSec).length := by
  induction evs with
  | nil => intro s; simp [hr_run]
  | cons ev evs ih =>
    intro s
    obtain ⟨h1, h2, h3, _⟩ := hr_step_calls K s ev
    have ih2 := ih (hr_step K s ev)
    rw [h1] at ih2
    have hs : storeCount (hr_step K s ev).log =
        storeCount s.log + (if isSec ev && !s.first_time then 1 else 0) := by
      rw [h2, storeCount_append, h3]
    rw [hr_run_cons]
    rw [hs] at ih2
    cases hf : s.first_time <;> cases he : isSec ev <;>
      simp [hf, he, List.filter_cons] at ih2 ⊢ <;> omega

theorem secEvents_any (ns : List (bt_conn × Nat × Nat)) :
    (secEvents ns).any isSec = !ns.isEmpty := by
  cases ns <;> simp [secEvents, isSec]

theorem secEvents_filter (ns : List (bt_conn × Nat × Nat)) :
    ((secEvents ns).filter isSec).length = ns.length := by
  induction ns with
  | nil => rfl
  | cons n ns ih => simpa [secEvents, isSec] using ih

/-- C1: from the initial state, whatever level and error code each
`SecurityChanged` notification carries, the first notification performs no
`bt_keys_clear` and no `bt_keys_store`, every later notification performs
exactly one `bt_keys_store`, and `n` notifications perform `n - 1` stores. -/
theorem security_changed_gating (K : KeysHdr) (ks : KeyStore)
    (ns : List (bt_conn × Nat × Nat)) (hn : 1 ≤ ns.length) :
    (∀ k, k < ns.length →
      (hr_run K (hr_init ks) (secEvents (ns.take (k + 1)))).log =
        (hr_run K (hr_init ks) (secEvents (ns.take k))).log ++
          callsSince (hr_run K (hr_init ks) (secEvents (ns.take k)))
            (hr_run K (hr_init ks) (secEvents (ns.take (k + 1)))) ∧
      storeCount (callsSince (hr_run K (hr_init ks) (secEvents (ns.take k)))
        (hr_run K (hr_init ks) (secEvents (ns.take (k + 1))))) = (if k = 0 then 0 else 1) ∧
      clearCount (callsSince (hr_run K (hr_init ks) (secEvents (ns.take k)))
        (hr_run K (hr_init ks) (secEvents (ns.take (k + 1))))) = (if k = 0 then 0 else 1)) ∧
    storeCount (hr_run K (hr_init ks) (secEvents ns)).log + 1 = ns.length := by
  constructor
  · intro k hk
    have htake : secEvents (ns.take (k + 1)) =
        secEvents (ns.take k) ++
          [HrEvent.security_changed ns[k].1 ns[k].2.1 ns[k].2.2] := by
      unfold secEvents
      rw [List.take_succ, List.map_append, List.getElem?_eq_getElem hk]
      rfl
    rw [htake, hr_run_snoc]
    obtain ⟨_, h2, h3, h4⟩ := hr_step_calls K (hr_run K (hr_init ks) (secEvents (ns.take k)))
      (HrEvent.security_changed ns[k].1 ns[k].2.1 ns[k].2.2)
    have hft : (hr_run K (hr_init ks) (secEvents (ns.take k))).first_time =
        decide (k = 0) := by
      rw [hr_run_first_time, secEvents_any]
      cases k with
      | zero => simp [hr_init]
      | succ j =>
        have : ns.take (j + 1) ≠ [] := by
          intro h0
          rcases List.take_eq_nil_iff.mp h0 with h | h
          · omega
          · subst h; simp at hk
        simp [hr_init, this]
    refine ⟨h2, ?_, ?_⟩
    · rw [h3, hft]; by_cases h0 : k = 0 <;> simp [h0, isSec]
    · rw [h4, hft]; by_cases h0 : k = 0 <;> simp [h0, isSec]
  · have h := hr_run_storeCount K (secEvents ns) (hr_init ks)
    rw [secEvents_any, secEvents_filter] at h
    have hne : ns ≠ [] := by
      intro h0; simp [h0] at hn
    simp [hr_init, hne, storeCount] at h
    simpa [storeCount] using h

/-- C1 at two notifications, the first failed (error 4) and the second
successful: the only store is the one of the second notification. -/
theorem security_changed_gating_witness :
    1 ≤ [((⟨1, ⟨1, [1, 2, 3, 4, 5, 6]⟩⟩ : bt_conn), 2, 4),
        ((⟨1, ⟨1, [1, 2, 3, 4, 5, 6]⟩⟩ : bt_conn), 2, 0)].length ∧
    storeCount (hr_run ⟨2, 32, 63⟩ (hr_init [])
      (secEvents [((⟨1, ⟨1, [1, 2, 3, 4, 5, 6]⟩⟩ : bt_conn), 2, 4),
        ((⟨1, ⟨1, [1, 2, 3, 4, 5, 6]⟩⟩ : bt_conn), 2, 0)])).log + 1 = 2 :=
  ⟨by decide, (security_changed_gating ⟨2, 32, 63⟩ []
    [((⟨1, ⟨1, [1, 2, 3, 4, 5, 6]⟩⟩ : bt_conn), 2, 4),
      ((⟨1, ⟨1, [1, 2, 3, 4, 5, 6]⟩⟩ : bt_conn), 2, 0)] (by decide)).2⟩

/-- C2, counterexample: in a second session (after `LinkDisconnected` and a new
`LinkConnected`) the first `SecurityChanged` of the session does clear and
store. -/
theorem first_skip_per_session_counterexample :
    freshSession secondSession = true ∧
    storeCount (callsSince (hr_run K0 (hr_init []) secondSession)
      (security_changed K0 (hr_run K0 (hr_init []) secondSession) c0 2 0)) = 1 ∧
    clearCount (callsSince (hr_run K0 (hr_init []) secondSession)
      (security_changed K0 (hr_run K0 (hr_init []) secondSession) c0 2 0)) = 1 := by
  decide

/-- C2, amended: the skip happens once per boot. After any events since
start-up, a `SecurityChanged` notification takes no Key Store action when no
`SecurityChanged` was handled before it, and performs exactly one
`bt_keys_clear` and one `bt_keys_store` when one was, whatever connects and
disconnects lie in between. -/
theorem first_skip_once_per_boot (K : KeysHdr) (ks : KeyStore) (pre : List HrEvent)
    (conn : bt_conn) (level err : Nat) :
    (pre.any isSec = false →
      ((callsSince (hr_run K (hr_init ks) pre)
        (security_changed K (hr_run K (hr_init ks) pre) conn level err)).filter
          isKeyWrite = [])) ∧
    (pre.any isSec = true →
      storeCount (callsSince (hr_run K (hr_init ks) pre)
        (security_changed K (hr_run K (hr_init ks) pre) conn level err)) = 1 ∧
      clearCount (callsSince (hr_run K (hr_init ks) pre)
        (security_changed K (hr_run K (hr_init ks) pre) conn level err)) = 1) := by
  have hft := hr_run_first_time K pre (hr_init ks)
  constructor
  · intro h
    have h1 : (hr_run K (hr_init ks) pre).first_time = true := by
      rw [hft, h]; rfl
    have e := security_changed_first K _ conn level err h1
    have hl : (security_changed K (hr_run K (hr_init ks) pre) conn level err).log =
        (hr_run K (hr_init ks) pre).log ++ [secMsg conn level err] := by rw [e]
    rw [callsSince_append _ _ _ hl]
    unfold secMsg
    by_cases he : err = 0 <;> simp [he, isKeyWrite]
  · intro h
    have h1 : (hr_run K (hr_init ks) pre).first_time = false := by
      rw [hft, h]; rfl
    obtain ⟨_, _, _, h4, h5⟩ :=
      security_changed_calls K (hr_run K (hr_init ks) pre) conn level err
    rw [h4, h5, h1]
    simp

/-- C2, amended, at concrete runs: right after the first connect the
notification is skipped; in the second session it is not. -/
theorem first_skip_once_per_boot_witness :
    ((callsSince (hr_run K0 (hr_init []) [.connected c0 0])
      (security_changed K0 (hr_run K0 (hr_init []) [.connected c0 0]) c0 2 0)).filter
        isKeyWrite = []) ∧
    (storeCount (callsSince (hr_run K0 (hr_init []) secondSession)
      (security_changed K0 (hr_run K0 (hr_init []) secondSession) c0 2 7)) = 1 ∧
    clearCount (callsSince (hr_run K0 (hr_init []) secondSession)
      (security_changed K0 (hr_run K0 (hr_init []) secondSession) c0 2 7)) = 1) :=
  ⟨(first_skip_once_per_boot K0 [] [.connected c0 0] c0 2 0).1 (by decide),
   (first_skip_once_per_boot K0 [] secondSession c0 2 7).2 (by decide)⟩

/-- C3: for every peer, every prior Key Store content and every non-first
`SecurityChanged` notification, the key refresh clears the slot of the peer and
stores a record fixed by the peer address and the cached IRK alone (id 0,
enc_size 0x10, flags 0x10, key types LTK_P256|IRK, LTK DE AD BE EF then
zeros); afterwards that is the only record the store holds for the peer. -/
theorem key_refresh_full_replace (K : KeysHdr) (s : HrState) (conn : bt_conn)
    (level err : Nat) (h : s.first_time = false) :
    (callsSince s (security_changed K s conn level err)).filter isKeyWrite =
      [.bt_keys_clear
          { id := 0, addr := conn.dst, enc_size := 0, flags := 0, keys := 0,
            ltk := { val := [0, 0, 0, 0, 0, 0, 0, 0, 0, 0, 0, 0, 0, 0, 0, 0] },
            irk := { val := [0, 0, 0, 0, 0, 0, 0, 0, 0, 0, 0, 0, 0, 0, 0, 0] } },
        .bt_keys_store
          { id := 0, addr := conn.dst, enc_size := 0x10, flags := 0x10,
            keys := K.BT_KEYS_LTK_P256 ||| K.BT_KEYS_IRK,
            ltk := { val := [0xDE, 0xAD, 0xBE, 0xEF, 0, 0, 0, 0, 0, 0, 0, 0, 0, 0, 0, 0] },
            irk := s.irk }] ∧
    (security_changed K s conn level err).store.filter (sameSlot 0 conn.dst) =
      [{ id := 0, addr := conn.dst, enc_size := 0x10, flags := 0x10,
         keys := K.BT_KEYS_LTK_P256 ||| K.BT_KEYS_IRK,
         ltk := { val := [0xDE, 0xAD, 0xBE, 0xEF, 0, 0, 0, 0, 0, 0, 0, 0, 0, 0, 0, 0] },
         irk := s.irk }] := by
  have e := security_changed_later K s conn level err h
  have hl : (security_changed K s conn level err).log =
      s.log ++ [secMsg conn level err,
        .bt_keys_clear { bt_keys_zero with addr := conn.dst },
        .bt_keys_store (refreshed K conn.dst s.irk),
        .printk "Storing keys\n" [],
        .bt_keys_get_addr 0 conn.dst] := by rw [e]
  rw [callsSince_append s _ _ hl]
  constructor
  · unfold secMsg
    by_cases he : err = 0 <;>
      simp [he, isKeyWrite, refreshed, bt_keys_zero, bt_irk_zero, bt_addr_le_zero]
  · rw [e]
    simp [List.filter_append, refreshed, sameSlot]

/-- C3 at a store that already holds a different record for the peer. -/
theorem key_refresh_full_replace_witness :
    sBonded.first_time = false ∧
    (security_changed K0 sBonded c0 2 0).store.filter (sameSlot 0 c0.dst) =
      [{ id := 0, addr := c0.dst, enc_size := 0x10, flags := 0x10,
         keys := K0.BT_KEYS_LTK_P256 ||| K0.BT_KEYS_IRK,
         ltk := { val := [0xDE, 0xAD, 0xBE, 0xEF, 0, 0, 0, 0, 0, 0, 0, 0, 0, 0, 0, 0] },
         irk := sBonded.irk }] :=
  ⟨rfl, (key_refresh_full_replace K0 sBonded c0 2 0 rfl).2⟩

/-- C10: the cached IRK is all zeros initially; `disconnected` visits every
record of the Key Store in order and leaves the cached IRK equal to the IRK of
the last record visited, or unchanged on an empty store; `security_changed`
never modifies the cached IRK; the record a non-first `security_changed`
stores carries the IRK cached at that moment. -/
theorem cached_irk_provenance (K : KeysHdr) :
    (∀ ks : KeyStore,
      (hr_init ks).irk = { val := [0, 0, 0, 0, 0, 0, 0, 0, 0, 0, 0, 0, 0, 0, 0, 0] }) ∧
    (∀ (s : HrState) (conn : bt_conn) (reason : Nat),
      callsSince s (disconnected K s conn reason) =
        [HrCall.printk "Disconnected (reason 0x%02x)\n" [.num reason],
          HrCall.bt_keys_foreach K.BT_KEYS_ALL] ++
        s.store.map (fun k =>
          HrCall.printk "LTK iteratior: %02X\n" [.num (k.ltk.val.getD 0 0)]) ∧
      (disconnected K s conn reason).irk =
        (match s.store.getLast? with
          | some k => k.irk
          | none => s.irk)) ∧
    (∀ (s : HrState) (conn : bt_conn) (level err : Nat),
      (security_changed K s conn level err).irk = s.irk) ∧
    (∀ (s : HrState) (conn : bt_conn) (level err : Nat), s.first_time = false →
      (∃ r, HrCall.bt_keys_store r ∈ callsSince s (security_changed K s conn level err)) ∧
      (∀ r, HrCall.bt_keys_store r ∈ callsSince s (security_changed K s conn level err) →
        r.irk = s.irk) ∧
      (∀ r ∈ (security_changed K s conn level err).store,
        sameSlot 0 conn.dst r = true → r.irk = s.irk)) := by
  refine ⟨fun ks => rfl, ?_, ?_, ?_⟩
  · intro s conn reason
    have e := hr_disconnected_eq K s conn reason
    constructor
    · apply callsSince_append
      rw [e]
    · rw [e]
  · intro s conn level err
    exact (security_changed_calls K s conn level err).2.1
  · intro s conn level err h
    have e := security_changed_later K s conn level err h
    have hl : (security_changed K s conn level err).log =
        s.log ++ [secMsg conn level err,
          .bt_keys_clear { bt_keys_zero with addr := conn.dst },
          .bt_keys_store (refreshed K conn.dst s.irk),
          .printk "Storing keys\n" [],
          .bt_keys_get_addr 0 conn.dst] := by rw [e]
    rw [callsSince_append s _ _ hl]
    refine ⟨⟨refreshed K conn.dst s.irk, by simp⟩, ?_, ?_⟩
    · intro r hr
      have hne : HrCall.bt_keys_store r ≠ secMsg conn level err := by
        unfold secMsg; by_cases he : err = 0 <;> simp [he]
      simp [hne] at hr
      rw [hr]; rfl
    · intro r hr hslot
      rw [e] at hr
      simp only [List.mem_append, List.mem_filter, List.mem_singleton] at hr
      rcases hr with ⟨_, hr⟩ | hr
      · simp [hslot] at hr
      · rw [hr]; rfl

/-- C10 at a store whose record for the peer held another IRK: after the
refresh the record of the peer carries the cached IRK. -/
theorem cached_irk_provenance_witness :
    sBonded.first_time = false ∧
    (∀ r ∈ (security_changed K0 sBonded c0 2 0).store,
      sameSlot 0 c0.dst r = true → r.irk = sBonded.irk) :=
  ⟨rfl, ((cached_irk_provenance K0).2.2.2 sBonded c0 2 0 rfl).2.2⟩

end PeripheralHr

namespace PeripheralDis

/-! ## Theorems, peripheral_dis: re-arm, failed connections and duty cycle -/

theorem dis_callsSince_append (s t : DisState) (d : List DisCall) (h : t.log = s.log ++ d) :
    callsSince s t = d := by
  simp [callsSince, h]

theorem dis_disconnected_eq (s : DisState) (conn : bt_conn) (reason : Nat) :
    disconnected s conn reason =
      { default_conn := none, is_high_duty := s.is_high_duty,
        advertising_work := some 100, disconnect_work := s.disconnect_work,
        log := s.log ++
          [.printk "Disconnected from %s (reason %u)\n" [.addr conn.dst, .num reason],
           .bt_conn_unref s.default_conn,
           .k_delayed_work_submit .advertising_work 100] } := by
  simp [disconnected, k_delayed_work_submit, DisState.emit]

theorem connected_err_eq (s : DisState) (conn : bt_conn) (err : Nat) (h : err ≠ 0) :
    connected s conn err =
      { s with
        default_conn := none
        log := s.log ++ [.bt_conn_unref s.default_conn,
          .printk "Failed to connect to %s (%u)\n" [.addr conn.dst, .num err]] } := by
  simp [connected, h, DisState.emit]

theorem connected_ok_eq (s : DisState) (conn : bt_conn) :
    connected s conn 0 =
      { s with
        log := s.log ++ [.printk "Connected %s\n" [.addr conn.dst],
          .printk "Conn: %08X\n" [.conn (some conn)]] } := by
  simp [connected, DisState.emit]

theorem advertising_start_eq (B : Board) (s : DisState) (ret : Option bt_conn) :
    advertising_start B s ret =
      { s with
        default_conn := ret
        log := s.log ++
          [.bt_conn_create_slave_le (peer_addr B)
              (if s.is_high_duty then .BT_LE_ADV_CONN_DIR else .BT_LE_ADV_CONN_DIR_LOW_DUTY) ret,
           if ret.isNone then .printk "Advertising failed to start\n" []
           else .printk "Advertising successfully started: %08X\n" [.conn ret]] } := by
  unfold advertising_start
  cases hd : s.is_high_duty <;> cases ret <;> simp [DisState.emit, hd]

/-- C4: for every reason code `X`, `disconnected` releases and clears the
handle and submits the advertising work item with a delay of 100 ms; apart
from the logged reason the outcome does not depend on `X`; when that timer
fires next, exactly one directed start request is issued and the work item is
idle again. -/
theorem rearm_after_disconnect (B : Board) (s : DisState) (conn : bt_conn) (X : Nat) :
    (disconnected s conn X).default_conn = none ∧
    (disconnected s conn X).advertising_work = some 100 ∧
    (disconnected s conn X).log = s.log ++
      [.printk "Disconnected from %s (reason %u)\n" [.addr conn.dst, .num X],
       .bt_conn_unref s.default_conn,
       .k_delayed_work_submit .advertising_work 100] ∧
    (∀ Y : Nat,
      (disconnected s conn Y).control = (disconnected s conn X).control ∧
      apiCalls (callsSince s (disconnected s conn Y)) =
        apiCalls (callsSince s (disconnected s conn X))) ∧
    (∀ ret : Option bt_conn,
      startRequests (callsSince (disconnected s conn X)
        (dis_step B (disconnected s conn X) (.advertising_work_expiry ret))) =
        [.bt_conn_create_slave_le (peer_addr B)
          (if s.is_high_duty then .BT_LE_ADV_CONN_DIR else .BT_LE_ADV_CONN_DIR_LOW_DUTY)
          ret] ∧
      (dis_step B (disconnected s conn X) (.advertising_work_expiry ret)).advertising_work =
        none) := by
  have e := dis_disconnected_eq s conn X
  refine ⟨by rw [e], by rw [e], by rw [e], ?_, ?_⟩
  · intro Y
    have eY := dis_disconnected_eq s conn Y
    constructor
    · rw [e, eY]; rfl
    · rw [dis_callsSince_append s _ _ (by rw [eY]), dis_callsSince_append s _ _ (by rw [e])]
      simp [apiCalls]
  · intro ret
    have hstep : dis_step B (disconnected s conn X) (.advertising_work_expiry ret) =
        advertising_start B { disconnected s conn X with advertising_work := none } ret := by
      rw [e]; simp [dis_step, advertising_init_wrapper]
    rw [hstep, advertising_start_eq]
    constructor
    · rw [dis_callsSince_append (disconnected s conn X) _ _ rfl]
      rw [e]
      cases ret <;> simp [startRequests]
    · rfl

/-- C5, counterexample: after a regular start-up, `LinkConnected` with error
0x3E submits no work item and leaves the advertising work idle, whereas
`LinkDisconnected` submits it with the settle delay. -/
theorem failed_connect_rearm_counterexample :
    submissions (callsSince sStarted (connected sStarted c1 0x3E)) = [] ∧
    (connected sStarted c1 0x3E).advertising_work = none ∧
    (disconnected sStarted c1 0x3E).advertising_work = some 100 := by
  decide

/-- C5, amended: for every non-zero error code, handling `LinkConnected`
releases the connection handle and clears it (`default_conn` becomes NULL) but
schedules nothing: the only calls are one `bt_conn_unref` and the log line, no
work item is submitted and both work items keep the schedule they had, so with
the advertising work idle a later expiry starts nothing, whereas
`LinkDisconnected` with the same code submits the advertising work item. -/
theorem failed_connect_schedules_nothing (B : Board) (s : DisState) (conn : bt_conn)
    (e : Nat) (he : e ≠ 0) :
    (connected s conn e).default_conn = none ∧
    (connected s conn e).log = s.log ++
      [.bt_conn_unref s.default_conn,
       .printk "Failed to connect to %s (%u)\n" [.addr conn.dst, .num e]] ∧
    submissions (callsSince s (connected s conn e)) = [] ∧
    (connected s conn e).advertising_work = s.advertising_work ∧
    (connected s conn e).disconnect_work = s.disconnect_work ∧
    (s.advertising_work = none → ∀ ret,
      dis_step B (connected s conn e) (.advertising_work_expiry ret) = connected s conn e) ∧
    submissions (callsSince s (disconnected s conn e)) =
      [.k_delayed_work_submit .advertising_work 100] := by
  have hc := connected_err_eq s conn e he
  refine ⟨by rw [hc], by rw [hc], ?_, by rw [hc], by rw [hc], ?_, ?_⟩
  · rw [dis_callsSince_append s _ _ (by rw [hc])]
    simp [submissions]
  · intro h ret
    rw [hc]
    simp [dis_step, h]
  · rw [dis_callsSince_append s _ _ (by rw [dis_disconnected_eq])]
    simp [submissions]

/-- C5, amended, after a regular start-up with error 0x3E. -/
theorem failed_connect_schedules_nothing_witness :
    (0x3E : Nat) ≠ 0 ∧
    (connected sStarted c1 0x3E).default_conn = none ∧
    (connected sStarted c1 0x3E).log = sStarted.log ++
      [.bt_conn_unref sStarted.default_conn,
       .printk "Failed to connect to %s (%u)\n" [.addr c1.dst, .num 0x3E]] ∧
    submissions (callsSince sStarted (connected sStarted c1 0x3E)) = [] ∧
    (connected sStarted c1 0x3E).advertising_work = sStarted.advertising_work :=
  ⟨by decide,
   (failed_connect_schedules_nothing B0 sStarted c1 0x3E (by decide)).1,
   (failed_connect_schedules_nothing B0 sStarted c1 0x3E (by decide)).2.1,
   (failed_connect_schedules_nothing B0 sStarted c1 0x3E (by decide)).2.2.1,
   (failed_connect_schedules_nothing B0 sStarted c1 0x3E (by decide)).2.2.2.1⟩

/-- C6: for every non-zero error code and every prior state, `connected`
releases the handle and leaves `default_conn` NULL; for error code 0 the
handle in `default_conn` is left as it was and nothing is released. -/
theorem failed_connect_retains_nothing (s : DisState) (conn : bt_conn) (e : Nat) :
    (e ≠ 0 →
      (connected s conn e).default_conn = none ∧
      apiCalls (callsSince s (connected s conn e)) = [.bt_conn_unref s.default_conn]) ∧
    (e = 0 →
      (connected s conn e).default_conn = s.default_conn ∧
      apiCalls (callsSince s (connected s conn e)) = []) := by
  constructor
  · intro he
    have hc := connected_err_eq s conn e he
    refine ⟨by rw [hc], ?_⟩
    rw [dis_callsSince_append s _ _ (by rw [hc])]
    simp [apiCalls]
  · intro he
    subst he
    have hc := connected_ok_eq s conn
    refine ⟨by rw [hc], ?_⟩
    rw [dis_callsSince_append s _ _ (by rw [hc])]
    simp [apiCalls]

/-- C6 after a regular start-up: error 0x3E drops the handle, error 0 keeps it. -/
theorem failed_connect_retains_nothing_witness :
    ((connected sStarted c1 0x3E).default_conn = none ∧
      apiCalls (callsSince sStarted (connected sStarted c1 0x3E)) =
        [.bt_conn_unref sStarted.default_conn]) ∧
    ((connected sStarted c1 0).default_conn = sStarted.default_conn ∧
      apiCalls (callsSince sStarted (connected sStarted c1 0)) = []) :=
  ⟨(failed_connect_retains_nothing sStarted c1 0x3E).1 (by decide),
   (failed_connect_retains_nothing sStarted c1 0).2 rfl⟩

theorem created_append (a b : List DisCall) : created (a ++ b) = created a + created b := by
  simp [created]

theorem released_append (a b : List DisCall) :
    released (a ++ b) = released a + released b := by
  simp [released]

theorem k_delayed_work_submit_props (s : DisState) (w : Work) (d : Nat) :
    (k_delayed_work_submit s w d).default_conn = s.default_conn ∧
    (k_delayed_work_submit s w d).is_high_duty = s.is_high_duty ∧
    created (k_delayed_work_submit s w d).log = created s.log ∧
    released (k_delayed_work_submit s w d).log = released s.log := by
  cases w <;> simp [k_delayed_work_submit, DisState.emit, created, released]

theorem button_pressed_props (B : Board) (s : DisState) (pins : Nat) :
    (button_pressed B s pins).default_conn = s.default_conn ∧
    created (button_pressed B s pins).log = created s.log ∧
    released (button_pressed B s pins).log = released s.log ∧
    (button_pressed B s pins).is_high_duty =
      (if pinSet pins B.SW2_GPIO_PIN then true
       else if pinSet pins B.SW1_GPIO_PIN then false else s.is_high_duty) := by
  unfold button_pressed
  cases h0 : pinSet pins B.SW0_GPIO_PIN <;> cases h1 : pinSet pins B.SW1_GPIO_PIN <;>
    cases h2 : pinSet pins B.SW2_GPIO_PIN <;>
    simp [k_delayed_work_submit, DisState.emit, created, released]

theorem configure_buttons_props (B : Board) (bound : Nat → Bool) (s : DisState) :
    (configure_buttons B bound s).default_conn = s.default_conn ∧
    (configure_buttons B bound s).is_high_duty = s.is_high_duty ∧
    created (configure_buttons B bound s).log = created s.log ∧
    released (configure_buttons B bound s).log = released s.log := by
  unfold configure_buttons
  generalize List.range 4 = l
  induction l generalizing s with
  | nil => simp
  | cons i l ih =>
    rw [List.foldl_cons]
    obtain ⟨h1, h2, h3, h4⟩ := ih
      (if bound i then
        ((((s.emit (.printk "%s(): port %zu bound\n" [.str "configure_buttons", .num i])).emit
          (.gpio_pin_configure i (pin_id B i))).emit
          (.gpio_init_callback i ((1 <<< pin_id B i) % 2 ^ 32))).emit
          (.gpio_add_callback i)).emit (.gpio_pin_enable_callback i (pin_id B i))
       else s)
    rw [h1, h2, h3, h4]
    cases bound i <;> simp [DisState.emit, created, released]

theorem main_props (B : Board) (bound : Nat → Bool) (enable_err : Int)
    (ret : Option bt_conn) :
    Balanced (main B bound enable_err ret) ∧
    (main B bound enable_err ret).is_high_duty = false := by
  obtain ⟨h1, h2, h3, h4⟩ := configure_buttons_props B bound dis_boot
  have hc : created dis_boot.log = 0 := rfl
  have hr : released dis_boot.log = 0 := rfl
  have hd : dis_boot.default_conn = none := rfl
  have hh : dis_boot.is_high_duty = false := rfl
  rw [hc] at h3; rw [hr] at h4; rw [hd] at h1; rw [hh] at h2
  unfold Balanced main
  by_cases he : enable_err = 0
  · simp only [he, ne_eq, not_true_eq_false, if_false, advertising_start_eq]
    cases ret <;>
      simp [DisState.emit, created_append, released_append, h1, h2, h3, h4] <;>
      simp [created, released]
  · simp only [he, ne_eq, not_false_eq_true, if_true]
    simp [DisState.emit, created_append, released_append, h1, h2, h3, h4]
    simp [created, released]

theorem dis_step_balanced (B : Board) (s : DisState) (ev : DisEvent) (h : Balanced s) :
    Balanced (dis_step B s ev) := by
  unfold Balanced at h ⊢
  cases ev with
  | button_pressed pins =>
    obtain ⟨h1, h2, h3, _⟩ := button_pressed_props B s pins
    simp only [dis_step, h1, h2, h3]
    exact h
  | advertising_work_expiry ret =>
    simp only [dis_step]
    cases hw : s.advertising_work with
    | none => simpa using h
    | some d =>
      simp only [advertising_init_wrapper]
      cases hc : s.default_conn with
      | some c => simp [hc] at h ⊢; exact h
      | none =>
        simp only [hc, Option.isNone_none, if_true, advertising_start_eq]
        simp [hc] at h
        cases ret <;> simp [created_append, released_append, h] <;> simp [created, released]
  | disconnect_work_expiry =>
    simp only [dis_step]
    cases hw : s.disconnect_work with
    | none => simpa using h
    | some d =>
      simp only [disconnect_init_wrapper]
      cases hc : s.default_conn with
      | none => simp [hc] at h ⊢; exact h
      | some c =>
        simp [hc] at h
        simp [hc, DisState.emit, created_append, released_append, h]
        simp [created, released]
  | connected conn err =>
    simp only [dis_step]
    by_cases he : err = 0
    · subst he
      rw [connected_ok_eq]
      simp [created_append, released_append, h]
      simp [created, released]
    · rw [connected_err_eq s conn err he]
      cases hc : s.default_conn <;> simp [hc] at h <;>
        simp [created_append, released_append, h] <;> simp [created, released]
  | disconnected conn reason =>
    simp only [dis_step]
    rw [dis_disconnected_eq]
    cases hc : s.default_conn <;> simp [hc] at h <;>
      simp [created_append, released_append, h] <;> simp [created, released]

theorem dis_run_balanced (B : Board) (evs : List DisEvent) :
    ∀ s : DisState, Balanced s → Balanced (dis_run B s evs) := by
  induction evs with
  | nil => intro s h; simpa [dis_run] using h
  | cons ev evs ih =>
    intro s h
    exact ih (dis_step B s ev) (dis_step_balanced B s ev h)

/-- C7: after start-up and any sequence of events, the advertising work
handler issues a start request only when `default_conn` is NULL and otherwise
does nothing; connection objects created and not yet released number one when
`default_conn` holds a handle and none when it is NULL, so never more than
one. -/
theorem one_live_connection (B : Board) (bound : Nat → Bool) (enable_err : Int)
    (ret0 : Option bt_conn) (evs : List DisEvent) :
    (∀ ret : Option bt_conn,
      ((dis_run B (main B bound enable_err ret0) evs).default_conn ≠ none →
        advertising_init_wrapper B (dis_run B (main B bound enable_err ret0) evs) ret =
          dis_run B (main B bound enable_err ret0) evs) ∧
      ((dis_run B (main B bound enable_err ret0) evs).default_conn = none →
        startRequests (callsSince (dis_run B (main B bound enable_err ret0) evs)
          (advertising_init_wrapper B (dis_run B (main B bound enable_err ret0) evs) ret)) =
          [.bt_conn_create_slave_le (peer_addr B)
            (if (dis_run B (main B bound enable_err ret0) evs).is_high_duty
              then .BT_LE_ADV_CONN_DIR else .BT_LE_ADV_CONN_DIR_LOW_DUTY) ret])) ∧
    created (dis_run B (main B bound enable_err ret0) evs).log ≤
      released (dis_run B (main B bound enable_err ret0) evs).log + 1 ∧
    ((dis_run B (main B bound enable_err ret0) evs).default_conn = none →
      created (dis_run B (main B bound enable_err ret0) evs).log =
        released (dis_run B (main B bound enable_err ret0) evs).log) := by
  have hb := dis_run_balanced B evs _ (main_props B bound enable_err ret0).1
  generalize dis_run B (main B bound enable_err ret0) evs = s at hb ⊢
  unfold Balanced at hb
  refine ⟨?_, ?_, ?_⟩
  · intro ret
    constructor
    · intro hne
      cases hc : s.default_conn with
      | none => exact absurd hc hne
      | some c => simp [advertising_init_wrapper, hc]
    · intro hc
      simp only [advertising_init_wrapper, hc, Option.isNone_none, if_true]
      rw [dis_callsSince_append s _ _ (by rw [advertising_start_eq])]
      cases ret <;> simp [startRequests]
  · cases hc : s.default_conn <;> simp [hc] at hb <;> omega
  · intro hc
    simpa [hc] using hb

/-- C7 on a run that connects, disconnects and re-arms: while the handle is
held the handler does nothing, and one object is live. -/
theorem one_live_connection_witness :
    advertising_init_wrapper B0
        (dis_run B0 (main B0 (fun _ => true) 0 (some c1))
          [.connected c1 0, .disconnected c1 0x13, .advertising_work_expiry (some c1)])
        (some c1) =
      dis_run B0 (main B0 (fun _ => true) 0 (some c1))
        [.connected c1 0, .disconnected c1 0x13, .advertising_work_expiry (some c1)] ∧
    created (dis_run B0 (main B0 (fun _ => true) 0 (some c1))
        [.connected c1 0, .disconnected c1 0x13, .advertising_work_expiry (some c1)]).log ≤
      released (dis_run B0 (main B0 (fun _ => true) 0 (some c1))
        [.connected c1 0, .disconnected c1 0x13, .advertising_work_expiry (some c1)]).log + 1 :=
  ⟨((one_live_connection B0 (fun _ => true) 0 (some c1)
      [.connected c1 0, .disconnected c1 0x13, .advertising_work_expiry (some c1)]).1
        (some c1)).1 (by decide),
   (one_live_connection B0 (fun _ => true) 0 (some c1)
      [.connected c1 0, .disconnected c1 0x13, .advertising_work_expiry (some c1)]).2.1⟩

theorem spec_duty_choice_cons (B : Board) (d : Bool) (m : Nat) (ms : List Nat) :
    spec_duty_choice B d (m :: ms) =
      spec_duty_choice B
        (if pinSet m B.SW2_GPIO_PIN then true
         else if pinSet m B.SW1_GPIO_PIN then false else d) ms := by
  unfold spec_duty_choice
  rw [List.reverse_cons, List.find?_append]
  cases hf : ms.reverse.find?
      (fun m => pinSet m B.SW1_GPIO_PIN || pinSet m B.SW2_GPIO_PIN) with
  | some x => simp
  | none =>
    cases h1 : pinSet m B.SW1_GPIO_PIN <;> cases h2 : pinSet m B.SW2_GPIO_PIN <;>
      simp [List.find?, h1, h2]

theorem dis_step_duty (B : Board) (s : DisState) (ev : DisEvent) :
    (dis_step B s ev).is_high_duty =
      (match ev with
        | .button_pressed pins =>
          (if pinSet pins B.SW2_GPIO_PIN then true
           else if pinSet pins B.SW1_GPIO_PIN then false else s.is_high_duty)
        | _ => s.is_high_duty) := by
  cases ev with
  | button_pressed pins => exact (button_pressed_props B s pins).2.2.2
  | advertising_work_expiry ret =>
    simp only [dis_step]
    cases hw : s.advertising_work with
    | none => rfl
    | some d =>
      simp only [advertising_init_wrapper]
      cases hc : s.default_conn with
      | some c => simp
      | none => simp [advertising_start_eq]
  | disconnect_work_expiry =>
    simp only [dis_step]
    cases hw : s.disconnect_work with
    | none => rfl
    | some d =>
      simp only [disconnect_init_wrapper]
      cases hc : s.default_conn <;> simp [DisState.emit]
  | connected conn err =>
    simp only [dis_step]
    by_cases he : err = 0
    · subst he; rw [connected_ok_eq]
    · rw [connected_err_eq s conn err he]
  | disconnected conn reason =>
    simp only [dis_step]
    rw [dis_disconnected_eq]

theorem dis_run_duty (B : Board) (evs : List DisEvent) :
    ∀ s : DisState,
      (dis_run B s evs).is_high_duty = spec_duty_choice B s.is_high_duty (buttonMasks evs) := by
  induction evs with
  | nil => intro s; rfl
  | cons ev evs ih =>
    intro s
    have hrun : dis_run B s (ev :: evs) = dis_run B (dis_step B s ev) evs := rfl
    rw [hrun, ih, dis_step_duty]
    cases ev <;> simp [buttonMasks, spec_duty_choice_cons]

/-- C8: every start request of `advertising_start` is directed at the
configured peer address and is high duty exactly when `is_high_duty` is true,
low duty otherwise; `is_high_duty` is false after start-up and, after any
events, is the choice of the most recent button event whose mask contained SW1
(low) or SW2 (high), SW2 winning over SW1 within one mask; a mask with neither
SW1 nor SW2 leaves it unchanged. -/
theorem duty_cycle_selection (B : Board) (bound : Nat → Bool) (enable_err : Int)
    (ret0 : Option bt_conn) :
    (∀ (s : DisState) (ret : Option bt_conn),
      startRequests (callsSince s (advertising_start B s ret)) =
        [.bt_conn_create_slave_le
          { type := B.BT_ADDR_LE_RANDOM, a := [0xC9, 0xC1, 0x95, 0x39, 0x4E, 0xE2] }
          (if s.is_high_duty then .BT_LE_ADV_CONN_DIR else .BT_LE_ADV_CONN_DIR_LOW_DUTY)
          ret]) ∧
    dis_boot.is_high_duty = false ∧
    (main B bound enable_err ret0).is_high_duty = false ∧
    (∀ evs : List DisEvent,
      (dis_run B (main B bound enable_err ret0) evs).is_high_duty =
        spec_duty_choice B false (buttonMasks evs)) ∧
    (∀ (s : DisState) (pins : Nat),
      (pinSet pins B.SW2_GPIO_PIN = true →
        (button_pressed B s pins).is_high_duty = true) ∧
      (pinSet pins B.SW2_GPIO_PIN = false → pinSet pins B.SW1_GPIO_PIN = true →
        (button_pressed B s pins).is_high_duty = false) ∧
      (pinSet pins B.SW2_GPIO_PIN = false → pinSet pins B.SW1_GPIO_PIN = false →
        (button_pressed B s pins).is_high_duty = s.is_high_duty)) := by
  have hm := (main_props B bound enable_err ret0).2
  refine ⟨?_, rfl, hm, ?_, ?_⟩
  · intro s ret
    rw [dis_callsSince_append s _ _ (by rw [advertising_start_eq])]
    cases ret <;> simp [startRequests, peer_addr]
  · intro evs
    rw [dis_run_duty, hm]
  · intro s pins
    have hp := (button_pressed_props B s pins).2.2.2
    refine ⟨fun h2 => ?_, fun h2 h1 => ?_, fun h2 h1 => ?_⟩
    · rw [hp]; simp [h2]
    · rw [hp]; simp [h2, h1]
    · rw [hp]; simp [h2, h1]

/-- C8 at concrete masks: SW1 and SW2 together select high duty, SW1 alone
low duty, and SW0 alone changes nothing. -/
theorem duty_cycle_selection_witness :
    (button_pressed B0 sStarted (2 ^ 14 + 2 ^ 15)).is_high_duty = true ∧
    (button_pressed B0 (button_pressed B0 sStarted (2 ^ 15)) (2 ^ 14)).is_high_duty = false ∧
    (button_pressed B0 (button_pressed B0 sStarted (2 ^ 15)) (2 ^ 13)).is_high_duty =
      (button_pressed B0 sStarted (2 ^ 15)).is_high_duty :=
  ⟨((duty_cycle_selection B0 (fun _ => true) 0 (some c1)).2.2.2.2
      sStarted (2 ^ 14 + 2 ^ 15)).1 (by decide),
   ((duty_cycle_selection B0 (fun _ => true) 0 (some c1)).2.2.2.2
      (button_pressed B0 sStarted (2 ^ 15)) (2 ^ 14)).2.1 (by decide) (by decide),
   ((duty_cycle_selection B0 (fun _ => true) 0 (some c1)).2.2.2.2
      (button_pressed B0 sStarted (2 ^ 15)) (2 ^ 13)).2.2 (by decide) (by decide)⟩

end PeripheralDis

namespace AdvertisingSets

/-! ## Theorems, advertising_sets: error propagation -/

/-- C9: whatever the lower layer answers, `bt_ext_advertising_start` performs
create, set-data and start in that order, each at most once, on the set handle
that create returned; it stops at the first step that fails and returns the
code of that step; the lower layer is left in the state reached by exactly the
steps performed, so no later step and no retry ran; it returns 0 exactly when
all three steps were performed and succeeded. -/
theorem ext_advertising_start_propagation {σ : Type} (L : ExtAdv σ) (ll : σ)
    (param : bt_le_adv_param) (ad : List bt_data) :
    (∃ rest, steps (bt_ext_advertising_start L ll param ad).log ++ rest =
      [(Step.create, (L.bt_le_ext_adv_create ll param).1),
       (Step.set_data, (L.bt_le_ext_adv_set_data (L.bt_le_ext_adv_create ll param).2.2
          (L.bt_le_ext_adv_create ll param).2.1 ad).1),
       (Step.start, (L.bt_le_ext_adv_start
          (L.bt_le_ext_adv_set_data (L.bt_le_ext_adv_create ll param).2.2
            (L.bt_le_ext_adv_create ll param).2.1 ad).2
          (L.bt_le_ext_adv_create ll param).2.1).1)]) ∧
    (∀ x ∈ (steps (bt_ext_advertising_start L ll param ad).log).dropLast, x.2 = 0) ∧
    (steps (bt_ext_advertising_start L ll param ad).log).getLast?.map (fun x => x.2) =
      some (bt_ext_advertising_start L ll param ad).ret ∧
    ((bt_ext_advertising_start L ll param ad).ret = 0 ↔
      (steps (bt_ext_advertising_start L ll param ad).log).map (fun x => x.1) =
        [Step.create, Step.set_data, Step.start] ∧
      ∀ x ∈ steps (bt_ext_advertising_start L ll param ad).log, x.2 = 0) ∧
    (bt_ext_advertising_start L ll param ad).ll =
      llAfter L ll param ad (steps (bt_ext_advertising_start L ll param ad).log).length ∧
    (∃ rest, layerCalls (bt_ext_advertising_start L ll param ad).log ++ rest =
      [.bt_le_ext_adv_create param (L.bt_le_ext_adv_create ll param).1,
       .bt_le_ext_adv_set_data (L.bt_le_ext_adv_create ll param).2.1 ad
         (L.bt_le_ext_adv_set_data (L.bt_le_ext_adv_create ll param).2.2
          (L.bt_le_ext_adv_create ll param).2.1 ad).1,
       .bt_le_ext_adv_start (L.bt_le_ext_adv_create ll param).2.1
         (L.bt_le_ext_adv_start
          (L.bt_le_ext_adv_set_data (L.bt_le_ext_adv_create ll param).2.2
            (L.bt_le_ext_adv_create ll param).2.1 ad).2
          (L.bt_le_ext_adv_create ll param).2.1).1]) := by
  unfold bt_ext_advertising_start
  by_cases h1 : (L.bt_le_ext_adv_create ll param).1 = 0
  · by_cases h2 : (L.bt_le_ext_adv_set_data (L.bt_le_ext_adv_create ll param).2.2
        (L.bt_le_ext_adv_create ll param).2.1 ad).1 = 0
    · by_cases h3 : (L.bt_le_ext_adv_start
          (L.bt_le_ext_adv_set_data (L.bt_le_ext_adv_create ll param).2.2
            (L.bt_le_ext_adv_create ll param).2.1 ad).2
          (L.bt_le_ext_adv_create ll param).2.1).1 = 0
      · simp [h1, h2, h3, steps, llAfter, layerCalls]
      · simp [h1, h2, h3, steps, llAfter, layerCalls]
    · simp [h1, h2, steps, llAfter, layerCalls]
  · simp [h1, steps, llAfter, layerCalls]

/-- C9 on the pool layer: with no free context only create is attempted and
its code -12 is returned; with a free context the result is 0 and the layer is
left in the state after all three steps. -/
theorem ext_advertising_start_propagation_witness :
    (bt_ext_advertising_start poolLayer 1 param0 []).ll =
      llAfter poolLayer 1 param0 []
        (steps (bt_ext_advertising_start poolLayer 1 param0 []).log).length ∧
    (steps (bt_ext_advertising_start poolLayer 0 param0 []).log).getLast?.map
        (fun x => x.2) = some (bt_ext_advertising_start poolLayer 0 param0 []).ret ∧
    ((bt_ext_advertising_start poolLayer 1 param0 []).ret = 0 ↔
      (steps (bt_ext_advertising_start poolLayer 1 param0 []).log).map (fun x => x.1) =
        [Step.create, Step.set_data, Step.start] ∧
      ∀ x ∈ steps (bt_ext_advertising_start poolLayer 1 param0 []).log, x.2 = 0) :=
  ⟨(ext_advertising_start_propagation poolLayer 1 param0 []).2.2.2.2.1,
   (ext_advertising_start_propagation poolLayer 0 param0 []).2.2.1,
   (ext_advertising_start_propagation poolLayer 1 param0 []).2.2.2.1⟩

end AdvertisingSets

end Zephyr
